import Mathlib

/-!
Shallow embedding of the seamless dual-video crossfade loop of the Hero
component, the scroll-parallax progress calculators of useParallax.ts, and
the lead-submission function of kommoService.ts.

Times, playback positions and opacities are rationals; a video duration is
an Option rational (none while the media metadata has not loaded, i.e. the
JS duration is not a finite number).  A frame update receives a single
clock reading now, standing for performance.now() during that callback.
-/

namespace Skipmar

/-- One video element's state as the crossfade code observes and mutates it:
current playback position, duration (none until metadata loads), whether it
is paused, and its loop attribute. -/
structure VideoState where
  currentTime : ℚ
  duration : Option ℚ
  paused : Bool
  loop : Bool
  deriving DecidableEq, Repr

/-- The Hero crossfade controller state: the two video slots, the two
wrapper layers' opacities, which slot is active (false = A, true = B),
whether a fade is in progress, the fade start timestamp, and whether a
per-frame callback is scheduled. -/
structure HeroState where
  videoA : VideoState
  videoB : VideoState
  opacityA : ℚ
  opacityB : ℚ
  activeIdx : Bool
  isFading : Bool
  fadeStart : ℚ
  rafScheduled : Bool
  deriving DecidableEq, Repr

/-- Configuration constant playbackRate = 0.75 (part_000 line 30). -/
def playbackRate : ℚ := 3 / 4

/-- Configuration constant fadeSeconds = 1.4 (part_000 line 31). -/
def fadeSeconds : ℚ := 7 / 5

/-- resetVideo (part_000 lines 73-80): pause and rewind to position 0. -/
def resetVideo (v : VideoState) : VideoState :=
  { v with paused := true, currentTime := 0 }

/-- safePlay (part_000 lines 64-71): start playback; autoplay failures are
swallowed, so the observable effect is that the video is no longer paused. -/
def safePlay (v : VideoState) : VideoState :=
  { v with paused := false }

/-- startOther (part_000 lines 82-85): reset the other video to position 0
and start it playing.  In the source this is fired without blocking the
frame loop; its observable effect on the slot is modelled here. -/
def startOther (v : VideoState) : VideoState :=
  safePlay (resetVideo v)

/-- The fade trigger point computed at part_000 line 112:
Math.max(0, dur - fadeSeconds). -/
def triggerAt (dur fadeSecs : ℚ) : ℚ := max 0 (dur - fadeSecs)

/-- Clamp to [0,1] as at part_000 line 124: Math.min(1, Math.max(0, t)). -/
def clamp01 (t : ℚ) : ℚ := min 1 (max 0 t)

/-- The smoothstep easing of part_000 line 126: p * p * (3 - 2 * p). -/
def smoothstep (p : ℚ) : ℚ := p * p * (3 - 2 * p)

/-- The clamped fade fraction of part_000 lines 123-124:
clamp((now - fadeStart) / (fadeSeconds * 1000), 0, 1). -/
def fadeProgress (fadeStart now : ℚ) : ℚ :=
  clamp01 ((now - fadeStart) / (fadeSeconds * 1000))

/-- The video slot at index i (false = A, true = B). -/
def getVideo (s : HeroState) (i : Bool) : VideoState :=
  if i then s.videoB else s.videoA

/-- Replace the video slot at index i. -/
def setVideo (s : HeroState) (i : Bool) (v : VideoState) : HeroState :=
  if i then { s with videoB := v } else { s with videoA := v }

/-- The wrapper-layer opacity at index i (false = A, true = B). -/
def getOpacity (s : HeroState) (i : Bool) : ℚ :=
  if i then s.opacityB else s.opacityA

/-- Replace the wrapper-layer opacity at index i. -/
def setOpacity (s : HeroState) (i : Bool) (o : ℚ) : HeroState :=
  if i then { s with opacityB := o } else { s with opacityA := o }

/-- The per-frame update tick of part_000 lines 100-139, with now standing
for performance.now() during this callback.  First the crossfade trigger
check (lines 110-119), then the crossfade progress step (lines 121-136),
then the unconditional reschedule (line 138). -/
def tick (now : ℚ) (s : HeroState) : HeroState :=
  let idx := s.activeIdx
  let s1 :=
    match (getVideo s idx).duration with
    | some d =>
        if s.isFading = false ∧ 0 < d ∧
            triggerAt d fadeSeconds ≤ (getVideo s idx).currentTime then
          let s' := { s with isFading := true, fadeStart := now }
          setVideo s' (!idx) (startOther (getVideo s' (!idx)))
        else s
    | none => s
  let s2 :=
    if s1.isFading then
      let p := fadeProgress s1.fadeStart now
      let eased := smoothstep p
      let s' := setOpacity (setOpacity s1 idx (1 - eased)) (!idx) eased
      if 1 ≤ p then
        let s'' := setVideo s' idx (resetVideo (getVideo s' idx))
        { s'' with activeIdx := !idx, isFading := false }
      else s'
    else s1
  { s2 with rafScheduled := true }

/-- The mount-time setup of the Hero useEffect (part_000 lines 29-98 and
141): with reduced motion (lines 40-48) slot A natively loops at full
opacity, slot B is left untouched apart from clearing its loop flag, and no
per-frame callback is scheduled; otherwise both loops are cleared, A is
made visible and played, B is reset, and the frame loop is scheduled. -/
def setup (reduced : Bool) (s : HeroState) : HeroState :=
  if reduced then
    { s with
      videoA := safePlay { s.videoA with loop := true },
      videoB := { s.videoB with loop := false },
      opacityA := 1, opacityB := 0,
      rafScheduled := false }
  else
    { s with
      videoA := safePlay { s.videoA with loop := false },
      videoB := resetVideo { s.videoB with loop := false },
      opacityA := 1, opacityB := 0,
      rafScheduled := true }

/-- The state at mount: refs initialised as at part_000 lines 17-20, wrapper
opacities 1 and 0 as in the markup (lines 236 and 254), then setup runs. -/
def mount (reduced : Bool) (a b : VideoState) : HeroState :=
  setup reduced
    { videoA := a, videoB := b,
      opacityA := 1, opacityB := 0,
      activeIdx := false, isFading := false, fadeStart := 0,
      rafScheduled := false }

/-- One display-refresh step of the session: the tick body runs only when a
callback is scheduled (scheduling is re-requested by the tick itself). -/
def stepFrame (now : ℚ) (s : HeroState) : HeroState :=
  if s.rafScheduled then tick now s else s

/-- A whole session: successive frame callbacks at the given clock
readings. -/
def runFrames (nows : List ℚ) (s : HeroState) : HeroState :=
  nows.foldl (fun st now => stepFrame now st) s

end Skipmar

namespace Parallax

/-- The normalized progress of useScrollParallax.updateParallax
(useParallax.ts lines 32-39): viewportCenter = viewportHeight / 2,
cardCenter = top + height / 2, progress =
Math.max(-1, Math.min(1, (viewportCenter - cardCenter) / viewportHeight)). -/
def scrollParallaxProgress (viewportHeight top height : ℚ) : ℚ :=
  let viewportCenter := viewportHeight / 2
  let cardCenter := top + height / 2
  let rawProgress := (viewportCenter - cardCenter) / viewportHeight
  max (-1) (min 1 rawProgress)

/-- The normalized progress of useParallaxSection.updateParallax
(useParallax.ts lines 195-203), computed from the section rect the same
way. -/
def sectionParallaxProgress (viewportHeight top height : ℚ) : ℚ :=
  let viewportCenter := viewportHeight / 2
  let sectionCenter := top + height / 2
  let rawProgress := (viewportCenter - sectionCenter) / viewportHeight
  max (-1) (min 1 rawProgress)

/-- The spec's formula, stated in its own terms for comparison:
clamp((viewportCenter - elementCenter) / viewportHeight, -1, 1). -/
def specClampProgress (viewportCenter elementCenter viewportHeight : ℚ) : ℚ :=
  max (-1) (min 1 ((viewportCenter - elementCenter) / viewportHeight))

end Parallax

namespace Kommo

/-- The service union type of the form payload (part_002 lines 54-62). -/
inductive ServiceKind where
  | workforceRental
  | supplies
  | weldingCoordination
  deriving DecidableEq, Repr

/-- The contact-form payload FormData (part_002 lines 54-62); the optional
attachment is a file list whose contents the submission logic never
inspects. -/
structure FormData where
  name : String
  email : String
  phone : Option String
  service : ServiceKind
  partNumber : Option String
  message : Option String
  hasAttachment : Bool
  deriving DecidableEq, Repr

/-- The try-block body of sendToKommo (kommoService.ts lines 14-23): every
network call is commented out and the body is the literal return true, so
it cannot throw. -/
def sendToKommoTryBody (_data : FormData) : Except String Bool :=
  Except.ok true

/-- sendToKommo (kommoService.ts lines 8-28): after the simulated delay the
try body runs; a caught error would resolve the promise with false (line
26), and a value thrown past the catch would reject it.  The returned
Except is ok b for a promise resolving with b and error e for a
rejection. -/
def sendToKommo (data : FormData) : Except String Bool :=
  match sendToKommoTryBody data with
  | Except.ok v => Except.ok v
  | Except.error _ => Except.ok false

end Kommo

namespace Skipmar

/-- A concrete mid-fade controller state used to instantiate theorems about
the fade-progress step. -/
def fadingState : HeroState :=
  { videoA := { currentTime := 5, duration := some 10, paused := false, loop := false },
    videoB := { currentTime := 0, duration := some 10, paused := false, loop := false },
    opacityA := 1/2, opacityB := 1/2,
    activeIdx := false, isFading := true, fadeStart := 0, rafScheduled := true }

/-- A concrete controller state at the end-to-end scenario's trigger point:
duration 10 s, fadeSeconds 1.4 s, slot A at playback position 8.6 s. -/
def triggerState : HeroState :=
  { videoA := { currentTime := 43/5, duration := some 10, paused := false, loop := false },
    videoB := { currentTime := 3, duration := some 10, paused := true, loop := false },
    opacityA := 1, opacityB := 0,
    activeIdx := false, isFading := false, fadeStart := 0, rafScheduled := true }

/-- A trigger-ready state whose wrapper opacities are both 1/2, so that an
opacity write performed by the triggering update is observable. -/
def halfOpacityTriggerState : HeroState :=
  { videoA := { currentTime := 43/5, duration := some 10, paused := false, loop := false },
    videoB := { currentTime := 3, duration := some 10, paused := true, loop := false },
    opacityA := 1/2, opacityB := 1/2,
    activeIdx := false, isFading := false, fadeStart := 0, rafScheduled := true }

theorem getOpacity_setOpacity_self (s : HeroState) (i : Bool) (o : ℚ) :
    getOpacity (setOpacity s i o) i = o := by
  cases i <;> simp [getOpacity, setOpacity]

theorem getOpacity_setOpacity_ne (s : HeroState) {i j : Bool} (h : i ≠ j) (o : ℚ) :
    getOpacity (setOpacity s i o) j = getOpacity s j := by
  cases i <;> cases j <;> simp_all [getOpacity, setOpacity]

theorem getOpacity_setVideo (s : HeroState) (i j : Bool) (v : VideoState) :
    getOpacity (setVideo s i v) j = getOpacity s j := by
  cases i <;> cases j <;> simp [getOpacity, setVideo]

theorem getVideo_setOpacity (s : HeroState) (i j : Bool) (o : ℚ) :
    getVideo (setOpacity s i o) j = getVideo s j := by
  cases i <;> cases j <;> simp [getVideo, setOpacity]

theorem getVideo_setVideo_self (s : HeroState) (i : Bool) (v : VideoState) :
    getVideo (setVideo s i v) i = v := by
  cases i <;> simp [getVideo, setVideo]

theorem getVideo_setVideo_ne (s : HeroState) {i j : Bool} (h : i ≠ j) (v : VideoState) :
    getVideo (setVideo s i v) j = getVideo s j := by
  cases i <;> cases j <;> simp_all [getVideo, setVideo]

theorem clamp01_nonneg (t : ℚ) : 0 ≤ clamp01 t := by
  simp [clamp01]

theorem clamp01_le_one (t : ℚ) : clamp01 t ≤ 1 :=
  min_le_left _ _

theorem clamp01_mono {t u : ℚ} (h : t ≤ u) : clamp01 t ≤ clamp01 u :=
  min_le_min le_rfl (max_le_max le_rfl h)

theorem smoothstep_nonneg {p : ℚ} (h0 : 0 ≤ p) (h1 : p ≤ 1) : 0 ≤ smoothstep p := by
  have : (0:ℚ) < 3 - 2 * p := by linarith
  have := mul_nonneg (mul_nonneg h0 h0) this.le
  simpa [smoothstep, mul_assoc] using this

theorem smoothstep_le_one {p : ℚ} (h0 : 0 ≤ p) (h1 : p ≤ 1) : smoothstep p ≤ 1 := by
  have key : (1:ℚ) - smoothstep p = (1 - p) * (1 - p) * (1 + 2 * p) := by
    simp only [smoothstep]; ring
  nlinarith [mul_nonneg (mul_nonneg (sub_nonneg.mpr h1) (sub_nonneg.mpr h1))
    (by linarith : (0:ℚ) ≤ 1 + 2 * p)]

theorem smoothstep_mono {p q : ℚ} (h0 : 0 ≤ p) (hpq : p ≤ q) (h1 : q ≤ 1) :
    smoothstep p ≤ smoothstep q := by
  have hq0 : 0 ≤ q := le_trans h0 hpq
  have hp1 : p ≤ 1 := le_trans hpq h1
  have key : smoothstep q - smoothstep p
      = (q - p) * (3 * (q + p) - 2 * (q * q + q * p + p * p)) := by
    simp only [smoothstep]; ring
  have hfac : 0 ≤ 3 * (q + p) - 2 * (q * q + q * p + p * p) := by
    nlinarith [mul_nonneg h0 (by linarith : (0:ℚ) ≤ 1 - p),
      mul_nonneg hq0 (by linarith : (0:ℚ) ≤ 1 - q),
      mul_nonneg h0 (by linarith : (0:ℚ) ≤ 1 - q),
      mul_nonneg hq0 (by linarith : (0:ℚ) ≤ 1 - p)]
  nlinarith [mul_nonneg (sub_nonneg.mpr hpq) hfac]

theorem smoothstep_pos {p : ℚ} (h0 : 0 < p) (h1 : p ≤ 1) : 0 < smoothstep p := by
  have : (0:ℚ) < 3 - 2 * p := by linarith
  have := mul_pos (mul_pos h0 h0) this
  simpa [smoothstep, mul_assoc] using this

theorem fadeProgress_self (fs : ℚ) : fadeProgress fs fs = 0 := by
  simp [fadeProgress, clamp01]

theorem fadeProgress_nonneg (fs now : ℚ) : 0 ≤ fadeProgress fs now :=
  clamp01_nonneg _

theorem fadeProgress_le_one (fs now : ℚ) : fadeProgress fs now ≤ 1 :=
  clamp01_le_one _

theorem fadeProgress_mono (fs : ℚ) {n1 n2 : ℚ} (h : n1 ≤ n2) :
    fadeProgress fs n1 ≤ fadeProgress fs n2 := by
  apply clamp01_mono
  have hc : (0:ℚ) ≤ (fadeSeconds * 1000)⁻¹ := by norm_num [fadeSeconds]
  rw [div_eq_mul_inv, div_eq_mul_inv]
  exact mul_le_mul_of_nonneg_right (by linarith) hc

theorem fadeProgress_pos {fs now : ℚ} (h : fs < now) : 0 < fadeProgress fs now := by
  have hc : (0:ℚ) < fadeSeconds * 1000 := by norm_num [fadeSeconds]
  have hx : (0:ℚ) < (now - fs) / (fadeSeconds * 1000) := div_pos (by linarith) hc
  simp only [fadeProgress, clamp01]
  have : max 0 ((now - fs) / (fadeSeconds * 1000)) = (now - fs) / (fadeSeconds * 1000) :=
    max_eq_right hx.le
  rw [this]
  exact lt_min one_pos hx

end Skipmar

namespace Skipmar

@[simp] theorem isFading_setVideo (s : HeroState) (i : Bool) (v : VideoState) :
    (setVideo s i v).isFading = s.isFading := by
  cases i <;> simp [setVideo]

@[simp] theorem fadeStart_setVideo (s : HeroState) (i : Bool) (v : VideoState) :
    (setVideo s i v).fadeStart = s.fadeStart := by
  cases i <;> simp [setVideo]

@[simp] theorem activeIdx_setVideo (s : HeroState) (i : Bool) (v : VideoState) :
    (setVideo s i v).activeIdx = s.activeIdx := by
  cases i <;> simp [setVideo]

@[simp] theorem isFading_setOpacity (s : HeroState) (i : Bool) (o : ℚ) :
    (setOpacity s i o).isFading = s.isFading := by
  cases i <;> simp [setOpacity]

@[simp] theorem fadeStart_setOpacity (s : HeroState) (i : Bool) (o : ℚ) :
    (setOpacity s i o).fadeStart = s.fadeStart := by
  cases i <;> simp [setOpacity]

@[simp] theorem activeIdx_setOpacity (s : HeroState) (i : Bool) (o : ℚ) :
    (setOpacity s i o).activeIdx = s.activeIdx := by
  cases i <;> simp [setOpacity]

@[simp] theorem getVideo_setOpacity_simp (s : HeroState) (i j : Bool) (o : ℚ) :
    getVideo (setOpacity s i o) j = getVideo s j := getVideo_setOpacity s i j o

@[simp] theorem getOpacity_setVideo_simp (s : HeroState) (i j : Bool) (v : VideoState) :
    getOpacity (setVideo s i v) j = getOpacity s j := getOpacity_setVideo s i j v

@[simp] theorem smoothstep_zero : smoothstep 0 = 0 := by
  simp [smoothstep]

@[simp] theorem smoothstep_one : smoothstep 1 = 1 := by
  norm_num [smoothstep]

theorem tick_fading_eq (now : ℚ) (s : HeroState) (h : s.isFading = true) :
    tick now s =
      (let p := fadeProgress s.fadeStart now
       let s' := setOpacity (setOpacity s s.activeIdx (1 - smoothstep p))
         (!s.activeIdx) (smoothstep p)
       if 1 ≤ p then
         { setVideo s' s.activeIdx (resetVideo (getVideo s' s.activeIdx)) with
             activeIdx := !s.activeIdx, isFading := false, rafScheduled := true }
       else { s' with rafScheduled := true }) := by
  unfold tick
  cases hd : (getVideo s s.activeIdx).duration <;>
    simp only [hd, h, Bool.true_eq_false, false_and, if_false, if_true] <;>
    by_cases hp : 1 ≤ fadeProgress s.fadeStart now <;>
      simp [hp]

end Skipmar

namespace Skipmar

@[simp] theorem getVideo_update_fade (s : HeroState) (b : Bool) (fs : ℚ) (i : Bool) :
    getVideo { s with isFading := b, fadeStart := fs } i = getVideo s i := by
  cases i <;> simp [getVideo]

@[simp] theorem getVideo_update_roles (s : HeroState) (i b c : Bool) (j : Bool) :
    getVideo { s with activeIdx := i, isFading := b, rafScheduled := c } j = getVideo s j := by
  cases j <;> simp [getVideo]

@[simp] theorem getOpacity_update_roles (s : HeroState) (i b c : Bool) (j : Bool) :
    getOpacity { s with activeIdx := i, isFading := b, rafScheduled := c } j
      = getOpacity s j := by
  cases j <;> simp [getOpacity]

@[simp] theorem getVideo_update_raf (s : HeroState) (c : Bool) (j : Bool) :
    getVideo { s with rafScheduled := c } j = getVideo s j := by
  cases j <;> simp [getVideo]

@[simp] theorem getOpacity_update_raf (s : HeroState) (c : Bool) (j : Bool) :
    getOpacity { s with rafScheduled := c } j = getOpacity s j := by
  cases j <;> simp [getOpacity]

theorem tick_trigger_eq (now : ℚ) (s : HeroState) (d : ℚ)
    (hf : s.isFading = false) (hd : (getVideo s s.activeIdx).duration = some d)
    (hd0 : 0 < d)
    (hct : triggerAt d fadeSeconds ≤ (getVideo s s.activeIdx).currentTime) :
    tick now s =
      { setOpacity
          (setOpacity
            (setVideo { s with isFading := true, fadeStart := now } (!s.activeIdx)
              (startOther (getVideo s (!s.activeIdx))))
            s.activeIdx 1)
          (!s.activeIdx) 0 with rafScheduled := true } := by
  have h10 : ¬ (1:ℚ) ≤ 0 := by norm_num
  unfold tick
  simp [hd, hf, hd0, hct, fadeProgress_self, h10]

theorem tick_fading_opacities (now : ℚ) (s : HeroState) (h : s.isFading = true) :
    getOpacity (tick now s) s.activeIdx
        = 1 - smoothstep (fadeProgress s.fadeStart now) ∧
    getOpacity (tick now s) (!s.activeIdx)
        = smoothstep (fadeProgress s.fadeStart now) := by
  rw [tick_fading_eq now s h]
  cases hi : s.activeIdx <;>
    by_cases hp : 1 ≤ fadeProgress s.fadeStart now <;>
      simp [hp, hi, getOpacity, setOpacity, setVideo, getVideo]

theorem tick_fading_not_done (now : ℚ) (s : HeroState) (h : s.isFading = true)
    (hp : fadeProgress s.fadeStart now < 1) :
    (tick now s).isFading = true ∧ (tick now s).fadeStart = s.fadeStart ∧
    (tick now s).activeIdx = s.activeIdx := by
  rw [tick_fading_eq now s h]
  simp [not_le.mpr hp, h]

theorem tick_trigger_state (now : ℚ) (s : HeroState) (d : ℚ)
    (hf : s.isFading = false) (hd : (getVideo s s.activeIdx).duration = some d)
    (hd0 : 0 < d)
    (hct : triggerAt d fadeSeconds ≤ (getVideo s s.activeIdx).currentTime) :
    (tick now s).isFading = true ∧ (tick now s).fadeStart = now ∧
    (tick now s).activeIdx = s.activeIdx := by
  rw [tick_trigger_eq now s d hf hd hd0 hct]
  simp

theorem runFrames_unscheduled (nows : List ℚ) (s : HeroState)
    (hs : s.rafScheduled = false) : runFrames nows s = s := by
  induction nows with
  | nil => rfl
  | cons n ns ih =>
      have h1 : stepFrame n s = s := by simp [stepFrame, hs]
      have h2 : runFrames (n :: ns) s = runFrames ns (stepFrame n s) := rfl
      rw [h2, h1]
      exact ih

end Skipmar

namespace Skipmar

/-- C1: for every frame update that runs while a fade is in progress, the
update sets the active layer's opacity to 1 - eased and the other layer's
opacity to eased, where eased = p * p * (3 - 2 * p) is the smoothstep of
p = clamp((now - fadeStartTime) / (fadeDurationSeconds * 1000), 0, 1). -/
theorem fade_step_opacity_values (now : ℚ) (s : HeroState) (h : s.isFading = true) :
    getOpacity (tick now s) s.activeIdx
        = 1 - smoothstep (fadeProgress s.fadeStart now) ∧
    getOpacity (tick now s) (!s.activeIdx)
        = smoothstep (fadeProgress s.fadeStart now) :=
  tick_fading_opacities now s h

/-- Witness for C1 at a concrete mid-fade state and clock reading 700 ms. -/
theorem fade_step_opacity_values_witness :
    fadingState.isFading = true ∧
    (getOpacity (tick 700 fadingState) fadingState.activeIdx
        = 1 - smoothstep (fadeProgress fadingState.fadeStart 700) ∧
     getOpacity (tick 700 fadingState) (!fadingState.activeIdx)
        = smoothstep (fadeProgress fadingState.fadeStart 700)) :=
  ⟨rfl, fade_step_opacity_values 700 fadingState rfl⟩

/-- C2: for every frame update performed during a fade, the opacity written
to the active layer plus the opacity written to the other layer equals 1
(exactly, in the rational model), and each of the two values lies in
[0,1]. -/
theorem fade_opacity_complementary (now : ℚ) (s : HeroState) (h : s.isFading = true) :
    getOpacity (tick now s) s.activeIdx + getOpacity (tick now s) (!s.activeIdx) = 1 ∧
    (0 ≤ getOpacity (tick now s) s.activeIdx ∧ getOpacity (tick now s) s.activeIdx ≤ 1) ∧
    (0 ≤ getOpacity (tick now s) (!s.activeIdx) ∧
      getOpacity (tick now s) (!s.activeIdx) ≤ 1) := by
  obtain ⟨ha, ho⟩ := tick_fading_opacities now s h
  have hp0 := fadeProgress_nonneg s.fadeStart now
  have hp1 := fadeProgress_le_one s.fadeStart now
  have he0 := smoothstep_nonneg hp0 hp1
  have he1 := smoothstep_le_one hp0 hp1
  rw [ha, ho]
  refine ⟨by ring, ⟨by linarith, by linarith⟩, he0, he1⟩

/-- Witness for C2 at a concrete mid-fade state and clock reading 350 ms. -/
theorem fade_opacity_complementary_witness :
    fadingState.isFading = true ∧
    (getOpacity (tick 350 fadingState) fadingState.activeIdx
        + getOpacity (tick 350 fadingState) (!fadingState.activeIdx) = 1 ∧
     (0 ≤ getOpacity (tick 350 fadingState) fadingState.activeIdx ∧
       getOpacity (tick 350 fadingState) fadingState.activeIdx ≤ 1) ∧
     (0 ≤ getOpacity (tick 350 fadingState) (!fadingState.activeIdx) ∧
       getOpacity (tick 350 fadingState) (!fadingState.activeIdx) ≤ 1)) :=
  ⟨rfl, fade_opacity_complementary 350 fadingState rfl⟩

/-- C3: in a frame update with no fade in progress, a known finite positive
duration, and the active slot's position at or past max(0, duration -
fadeSeconds), a fade begins in that update: the fading flag is set, the
fade start time is recorded as now, and the other slot is reset to
position 0 and started playing. -/
theorem fade_trigger_begins_fade (now : ℚ) (s : HeroState) (d : ℚ)
    (hf : s.isFading = false)
    (hd : (getVideo s s.activeIdx).duration = some d) (hd0 : 0 < d)
    (hct : triggerAt d fadeSeconds ≤ (getVideo s s.activeIdx).currentTime) :
    (tick now s).isFading = true ∧
    (tick now s).fadeStart = now ∧
    (getVideo (tick now s) (!s.activeIdx)).currentTime = 0 ∧
    (getVideo (tick now s) (!s.activeIdx)).paused = false := by
  rw [tick_trigger_eq now s d hf hd hd0 hct]
  cases hi : s.activeIdx <;>
    simp [hi, getVideo, setVideo, setOpacity, startOther, safePlay, resetVideo]

/-- Witness for C3 at the end-to-end scenario: duration 10 s, fadeSeconds
1.4 s, slot A at playback position 8.6 s, clock reading 8600 ms. -/
theorem fade_trigger_begins_fade_witness :
    triggerState.isFading = false ∧
    (getVideo triggerState triggerState.activeIdx).duration = some 10 ∧
    (0:ℚ) < 10 ∧
    triggerAt 10 fadeSeconds ≤ (getVideo triggerState triggerState.activeIdx).currentTime ∧
    ((tick 8600 triggerState).isFading = true ∧
     (tick 8600 triggerState).fadeStart = 8600 ∧
     (getVideo (tick 8600 triggerState) (!triggerState.activeIdx)).currentTime = 0 ∧
     (getVideo (tick 8600 triggerState) (!triggerState.activeIdx)).paused = false) :=
  ⟨rfl, rfl, by norm_num,
   by norm_num [triggerAt, fadeSeconds, getVideo, triggerState],
   fade_trigger_begins_fade 8600 triggerState 10 rfl rfl (by norm_num)
     (by norm_num [triggerAt, fadeSeconds, getVideo, triggerState])⟩

/-- C4: when the clamped fade fraction reaches 1, the frame update completes
the fade in that update: the previously-active slot is paused and reset to
position 0, the active index flips, and the fading flag is cleared. -/
theorem fade_completion_swaps_roles (now : ℚ) (s : HeroState)
    (h : s.isFading = true) (hp : 1 ≤ fadeProgress s.fadeStart now) :
    (getVideo (tick now s) s.activeIdx).paused = true ∧
    (getVideo (tick now s) s.activeIdx).currentTime = 0 ∧
    (tick now s).activeIdx = !s.activeIdx ∧
    (tick now s).isFading = false := by
  rw [tick_fading_eq now s h]
  cases hi : s.activeIdx <;>
    simp [hp, hi, getVideo, setVideo, setOpacity, resetVideo]

/-- Witness for C4 at a concrete mid-fade state and clock reading 1400 ms,
where the clamped fraction is exactly 1. -/
theorem fade_completion_swaps_roles_witness :
    fadingState.isFading = true ∧
    (1:ℚ) ≤ fadeProgress fadingState.fadeStart 1400 ∧
    ((getVideo (tick 1400 fadingState) fadingState.activeIdx).paused = true ∧
     (getVideo (tick 1400 fadingState) fadingState.activeIdx).currentTime = 0 ∧
     (tick 1400 fadingState).activeIdx = !fadingState.activeIdx ∧
     (tick 1400 fadingState).isFading = false) :=
  ⟨rfl, by norm_num [fadeProgress, clamp01, fadeSeconds, fadingState],
   fade_completion_swaps_roles 1400 fadingState rfl
     (by norm_num [fadeProgress, clamp01, fadeSeconds, fadingState])⟩

/-- C5: the computed fade trigger point is max(0, duration - fadeSeconds),
it is never negative, and for duration 1.0 s with fadeSeconds 1.4 s it
clamps to 0. -/
theorem trigger_point_clamped (d f : ℚ) :
    triggerAt d f = max 0 (d - f) ∧ 0 ≤ triggerAt d f ∧ triggerAt 1 fadeSeconds = 0 := by
  refine ⟨rfl, le_max_left _ _, ?_⟩
  norm_num [triggerAt, fadeSeconds]

/-- C6: within one fade, across consecutive frame updates with non-decreasing
clock readings, the eased opacity written to the incoming layer is
non-decreasing, and it never exceeds 1. -/
theorem fade_incoming_opacity_monotone (now1 now2 : ℚ) (s : HeroState)
    (h : s.isFading = true) (h12 : now1 ≤ now2)
    (hnd : fadeProgress s.fadeStart now1 < 1) :
    getOpacity (tick now1 s) (!s.activeIdx)
      ≤ getOpacity (tick now2 (tick now1 s)) (!s.activeIdx) ∧
    getOpacity (tick now2 (tick now1 s)) (!s.activeIdx) ≤ 1 := by
  obtain ⟨hf1, hfs1, hai1⟩ := tick_fading_not_done now1 s h hnd
  have h1 := (tick_fading_opacities now1 s h).2
  have h2 := (tick_fading_opacities now2 (tick now1 s) hf1).2
  rw [hai1, hfs1] at h2
  rw [h1, h2]
  have hp0 := fadeProgress_nonneg s.fadeStart now1
  have hp1 := fadeProgress_le_one s.fadeStart now2
  exact ⟨smoothstep_mono hp0 (fadeProgress_mono s.fadeStart h12) hp1,
    smoothstep_le_one (fadeProgress_nonneg _ _) hp1⟩

/-- Witness for C6 at a concrete mid-fade state with clock readings 350 ms
and 700 ms. -/
theorem fade_incoming_opacity_monotone_witness :
    fadingState.isFading = true ∧
    (350:ℚ) ≤ 700 ∧
    fadeProgress fadingState.fadeStart 350 < 1 ∧
    (getOpacity (tick 350 fadingState) (!fadingState.activeIdx)
       ≤ getOpacity (tick 700 (tick 350 fadingState)) (!fadingState.activeIdx) ∧
     getOpacity (tick 700 (tick 350 fadingState)) (!fadingState.activeIdx) ≤ 1) :=
  ⟨rfl, by norm_num, by norm_num [fadeProgress, clamp01, fadeSeconds, fadingState],
   fade_incoming_opacity_monotone 350 700 fadingState rfl (by norm_num)
     (by norm_num [fadeProgress, clamp01, fadeSeconds, fadingState])⟩

/-- C7: with the reduced-motion flag set at creation, the per-frame loop is
never scheduled and no frame update ever runs, so for the whole session no
fade triggers, slot A's layer stays at opacity 1 and slot B's at 0, slot A
natively loops and plays, and slot B is never started. -/
theorem reduced_motion_bypass (a b : VideoState) (nows : List ℚ) :
    runFrames nows (mount true a b) = mount true a b ∧
    (mount true a b).opacityA = 1 ∧
    (mount true a b).opacityB = 0 ∧
    (mount true a b).isFading = false ∧
    (mount true a b).rafScheduled = false ∧
    (mount true a b).videoA.loop = true ∧
    (mount true a b).videoA.paused = false ∧
    (mount true a b).videoB.paused = b.paused ∧
    (mount true a b).videoB.currentTime = b.currentTime := by
  refine ⟨runFrames_unscheduled nows _ rfl, ?_, ?_, ?_, ?_, ?_, ?_, ?_, ?_⟩ <;>
    simp [mount, setup, safePlay]

end Skipmar

namespace Skipmar

/-- C8 counterexample: the update that triggers a fade does read and apply
the fade progress in that same update.  At a concrete trigger-ready state
whose wrapper opacities are both 1/2, the triggering update rewrites them
to 1 and 0 (the eased opacities for progress 0), so the first read of the
fade progress happens in the triggering update itself, not only on the
subsequent frame's callback. -/
theorem trigger_frame_applies_progress_counterexample :
    halfOpacityTriggerState.isFading = false ∧
    halfOpacityTriggerState.opacityA = 1/2 ∧
    halfOpacityTriggerState.opacityB = 1/2 ∧
    (tick 0 halfOpacityTriggerState).opacityA = 1 ∧
    (tick 0 halfOpacityTriggerState).opacityB = 0 := by
  have hd : (getVideo halfOpacityTriggerState halfOpacityTriggerState.activeIdx).duration
      = some 10 := rfl
  have hct : triggerAt 10 fadeSeconds
      ≤ (getVideo halfOpacityTriggerState halfOpacityTriggerState.activeIdx).currentTime := by
    norm_num [triggerAt, fadeSeconds, getVideo, halfOpacityTriggerState]
  refine ⟨rfl, rfl, rfl, ?_, ?_⟩ <;>
    rw [tick_trigger_eq 0 halfOpacityTriggerState 10 rfl hd (by norm_num) hct] <;>
    norm_num [setOpacity, setVideo, halfOpacityTriggerState, startOther, safePlay,
      resetVideo, getVideo]

/-- C8 (amended): in every single frame update the check-for-fade-trigger
step executes before the fade-progress step, so a fade triggered in an
update immediately begins progressing in that same update; the progress
read in the triggering update shows exactly 0 (writing opacities 1 and 0,
since fadeStartTime is set to now), and a read showing positive progress
happens only on a subsequent frame's callback. -/
theorem trigger_then_progress_ordering (now now' : ℚ) (s : HeroState) (d : ℚ)
    (hf : s.isFading = false)
    (hd : (getVideo s s.activeIdx).duration = some d) (hd0 : 0 < d)
    (hct : triggerAt d fadeSeconds ≤ (getVideo s s.activeIdx).currentTime)
    (hlt : now < now') :
    (tick now s).isFading = true ∧
    fadeProgress now now = 0 ∧
    getOpacity (tick now s) s.activeIdx = 1 ∧
    getOpacity (tick now s) (!s.activeIdx) = 0 ∧
    0 < fadeProgress now now' ∧
    0 < getOpacity (tick now' (tick now s)) (!s.activeIdx) := by
  obtain ⟨hf1, hfs1, hai1⟩ := tick_trigger_state now s d hf hd hd0 hct
  have h2 := (tick_fading_opacities now' (tick now s) hf1).2
  rw [hai1, hfs1] at h2
  refine ⟨hf1, fadeProgress_self now, ?_, ?_, fadeProgress_pos hlt, ?_⟩
  · rw [tick_trigger_eq now s d hf hd hd0 hct]
    cases hi : s.activeIdx <;> simp [hi, getOpacity, setOpacity, setVideo]
  · rw [tick_trigger_eq now s d hf hd hd0 hct]
    cases hi : s.activeIdx <;> simp [hi, getOpacity, setOpacity, setVideo]
  · rw [h2]
    exact smoothstep_pos (fadeProgress_pos hlt) (fadeProgress_le_one _ _)

/-- Witness for the amended C8 at the trigger-ready state with clock
readings 8600 ms (triggering update) and 8616 ms (next callback). -/
theorem trigger_then_progress_ordering_witness :
    triggerState.isFading = false ∧
    (getVideo triggerState triggerState.activeIdx).duration = some 10 ∧
    (0:ℚ) < 10 ∧
    triggerAt 10 fadeSeconds ≤ (getVideo triggerState triggerState.activeIdx).currentTime ∧
    (8600:ℚ) < 8616 ∧
    ((tick 8600 triggerState).isFading = true ∧
     fadeProgress 8600 8600 = 0 ∧
     getOpacity (tick 8600 triggerState) triggerState.activeIdx = 1 ∧
     getOpacity (tick 8600 triggerState) (!triggerState.activeIdx) = 0 ∧
     0 < fadeProgress 8600 8616 ∧
     0 < getOpacity (tick 8616 (tick 8600 triggerState)) (!triggerState.activeIdx)) :=
  ⟨rfl, rfl, by norm_num,
   by norm_num [triggerAt, fadeSeconds, getVideo, triggerState],
   by norm_num,
   trigger_then_progress_ordering 8600 8616 triggerState 10 rfl rfl (by norm_num)
     (by norm_num [triggerAt, fadeSeconds, getVideo, triggerState]) (by norm_num)⟩

end Skipmar

namespace Parallax

/-- C9: both scroll-parallax calculators compute the normalized progress
clamp((viewportCenter - elementCenter) / viewportHeight, -1, 1) with
viewportCenter = viewportHeight / 2 and elementCenter = top + height / 2,
and the computed value always lies in [-1, 1]. -/
theorem parallax_progress_clamped (vh top height : ℚ) :
    scrollParallaxProgress vh top height
        = specClampProgress (vh / 2) (top + height / 2) vh ∧
    sectionParallaxProgress vh top height
        = specClampProgress (vh / 2) (top + height / 2) vh ∧
    -1 ≤ scrollParallaxProgress vh top height ∧
    scrollParallaxProgress vh top height ≤ 1 ∧
    -1 ≤ sectionParallaxProgress vh top height ∧
    sectionParallaxProgress vh top height ≤ 1 := by
  refine ⟨rfl, rfl, le_max_left _ _, ?_, le_max_left _ _, ?_⟩ <;>
    exact max_le (by norm_num) (min_le_left _ _)

end Parallax

namespace Kommo

/-- C10: for every form payload, sendToKommo resolves with true; it never
resolves with false and never rejects, so the failure indication of its
result type is unreachable. -/
theorem sendToKommo_always_succeeds (data : FormData) :
    sendToKommo data = Except.ok true := rfl

end Kommo
